import Mathlib

/-!
Shallow embedding of the version-navigation and message-editing logic of the
z-study-frontend chat components.

Sources:
* `src/components/Chat/VersionNavigator.tsx` — two variants of the component
  are present in the repository dump, separated by a document marker.  The
  first variant (lines 1–335) has no store wiring beyond `onLoadVersions`;
  the second variant (lines 336–867) talks to the versioning service
  (`getChatVersions`, `switchToVersion`, `deleteVersion`) and adds error
  state, a per-version menu and a compare mode.  Definitions with a `V1`
  suffix embed the first variant; unsuffixed definitions embed the second.
* `src/components/Chat/MessageEditor.tsx` — inline editor with `handleSave`.
* `src/unnamed/part_000` (a `ChatMessage` component) — hosts the editor and
  implements `handleSaveEdit`.

Modelling conventions: JS strings that are only compared for equality stay
`String`; the edited message content, which is trimmed, is a `List Char` so
that trimming is a plain list operation.  Asynchronous store calls are
embedded by passing the call's result (`Except` for failure/success) as an
explicit argument; whether the call was issued at all is recorded in a
boolean field of the outcome, which is the spy-observable invocation count.
JS truthiness of a string is emptiness; `e.message || fallback` is `orDefault`.
-/

namespace ZStudy

-- JS `String.prototype.trim`, over the character list of the string.
-- The JS whitespace class is modelled by `Char.isWhitespace`.
def jsTrimLeft (s : List Char) : List Char :=
  s.dropWhile Char.isWhitespace

def jsTrimRight (s : List Char) : List Char :=
  (s.reverse.dropWhile Char.isWhitespace).reverse

def jsTrim (s : List Char) : List Char :=
  jsTrimRight (jsTrimLeft s)

-- JS `e.message || fallback`: an empty (falsy) message is replaced.
def orDefault (msg fallback : String) : String :=
  if msg = "" then fallback else msg

-- `ChatVersion` record (VersionNavigator.tsx lines 30–38 and the
-- `types/versioning` import of the second variant).
structure ChatVersion where
  versionNumber : Nat
  isCurrentVersion : Bool
  content : String
  contentPreview : String
  createdAt : String
  wordCount : Nat
  characterCount : Nat
  deriving Repr, DecidableEq

-- Local component state of the second VersionNavigator variant
-- (lines 387–394): `versions`, `dialogOpen`, `loading`, `error`,
-- `selectedVersionForMenu`, `compareMode`, `selectedVersions`.
-- (`menuAnchorEl` is a DOM node and is not needed by any claim; the menu's
-- target version is `selectedVersionForMenu`.)
structure NavState where
  versions : List ChatVersion
  dialogOpen : Bool
  loading : Bool
  error : Option String
  selectedVersionForMenu : Option ChatVersion
  compareMode : Bool
  selectedVersions : List Nat
  deriving Repr, DecidableEq

-- Local component state of the first variant (lines 59–61): no error or
-- compare state exists there.
structure NavStateV1 where
  versions : List ChatVersion
  dialogOpen : Bool
  loading : Bool
  deriving Repr, DecidableEq

structure LoadOutcome where
  state : NavState
  listCalled : Bool
  deriving Repr, DecidableEq

structure LoadOutcomeV1 where
  state : NavStateV1
  listCalled : Bool
  deriving Repr, DecidableEq

-- `loadVersions` of the second variant (lines 396–416):
-- `if (!chatId) return;` then `setLoading(true); setError(null);`,
-- `await getChatVersions(...)`; on success `setVersions(response.data.versions)`;
-- on catch `setError(error.message || 'Failed to load versions')`;
-- `finally setLoading(false)`.
def loadVersions (chatId : String) (st : NavState)
    (listResult : Except String (List ChatVersion)) : LoadOutcome :=
  if chatId = "" then
    { state := st, listCalled := false }
  else
    match listResult with
    | Except.ok vs =>
        { state := { st with loading := false, error := none, versions := vs },
          listCalled := true }
    | Except.error e =>
        { state := { st with loading := false,
                             error := some (orDefault e "Failed to load versions") },
          listCalled := true }

-- `loadVersions` of the first variant (lines 63–75): same `!chatId` guard;
-- the catch clause only logs, there is no error state.
def loadVersionsV1 (chatId : String) (st : NavStateV1)
    (listResult : Except String (List ChatVersion)) : LoadOutcomeV1 :=
  if chatId = "" then
    { state := st, listCalled := false }
  else
    match listResult with
    | Except.ok vs =>
        { state := { st with loading := false, versions := vs }, listCalled := true }
    | Except.error _ =>
        { state := { st with loading := false }, listCalled := true }

-- `handlePreviousVersion` (identical in both variants, lines 77–83 and
-- 418–424): the version number passed to `onVersionChange`.
def handlePreviousVersion (currentVersion totalVersions : Nat) : Nat :=
  if currentVersion > 1 then currentVersion - 1 else totalVersions

-- `handleNextVersion` (lines 85–91 and 426–432).
def handleNextVersion (currentVersion totalVersions : Nat) : Nat :=
  if currentVersion < totalVersions then currentVersion + 1 else 1

structure SelectOutcome where
  state : NavState
  switchCalled : Bool
  reported : Option Nat
  deriving Repr, DecidableEq

-- `handleVersionSelect` of the second variant (lines 434–448):
-- `setLoading(true); await switchToVersion(chatId, ...)`; on success
-- `onVersionChange(versionNumber); setDialogOpen(false)`; on catch
-- `setError(error.message || 'Failed to switch version')`;
-- `finally setLoading(false)`.  The switch call is always issued;
-- `reported` is the argument passed to `onVersionChange`, if any.
def handleVersionSelect (n : Nat) (st : NavState)
    (switchResult : Except String Unit) : SelectOutcome :=
  match switchResult with
  | Except.ok _ =>
      { state := { st with loading := false, dialogOpen := false },
        switchCalled := true, reported := some n }
  | Except.error e =>
      { state := { st with loading := false,
                           error := some (orDefault e "Failed to switch version") },
        switchCalled := true, reported := none }

structure SelectOutcomeV1 where
  dialogOpen : Bool
  switchCalled : Bool
  reported : Option Nat
  deriving Repr, DecidableEq

-- `handleVersionSelect` of the first variant (lines 93–96):
-- `onVersionChange(versionNumber); setDialogOpen(false);` — no store call.
def handleVersionSelectV1 (n : Nat) : SelectOutcomeV1 :=
  { dialogOpen := false, switchCalled := false, reported := some n }

-- `handleVersionToggleForCompare` (lines 491–497): remove an already
-- selected version (`prev.filter(v => v !== versionNumber)`), append when
-- fewer than two are selected, otherwise do nothing.
def handleVersionToggleForCompare (n : Nat) (sel : List Nat) : List Nat :=
  if sel.contains n then sel.filter (fun v => v != n)
  else if sel.length < 2 then sel ++ [n]
  else sel

-- The version-list row click of the second variant (lines 679–691):
-- in compare mode the click only toggles the selection, otherwise it runs
-- `handleVersionSelect`.
def listItemButtonClick (n : Nat) (st : NavState)
    (switchResult : Except String Unit) : SelectOutcome :=
  if st.compareMode then
    { state := { st with
        selectedVersions := handleVersionToggleForCompare n st.selectedVersions },
      switchCalled := false, reported := none }
  else
    handleVersionSelect n st switchResult

structure DeleteOutcome where
  state : NavState
  deleteCalls : List Nat
  listCalled : Bool
  deriving Repr, DecidableEq

-- `handleDeleteVersion` (lines 465–475): `if (!selectedVersionForMenu) return;`
-- then `await deleteVersion(chatId, versionNumber, role)`, on success
-- `await loadVersions()` and `handleMenuClose()` (which clears
-- `selectedVersionForMenu`); on catch
-- `setError(error.message || 'Failed to delete version')`.
def handleDeleteVersion (chatId : String) (n : Nat) (st : NavState)
    (deleteResult : Except String Unit)
    (listResult : Except String (List ChatVersion)) : DeleteOutcome :=
  match st.selectedVersionForMenu with
  | none => { state := st, deleteCalls := [], listCalled := false }
  | some _ =>
      match deleteResult with
      | Except.ok _ =>
          let lo := loadVersions chatId st listResult
          { state := { lo.state with selectedVersionForMenu := none },
            deleteCalls := [n], listCalled := lo.listCalled }
      | Except.error e =>
          { state := { st with
              error := some (orDefault e "Failed to delete version") },
            deleteCalls := [n], listCalled := false }

-- The "Delete Version" menu item (lines 854–861):
-- `disabled={selectedVersionForMenu?.isCurrentVersion}` and
-- `onClick={() => selectedVersionForMenu && handleDeleteVersion(...)}`.
-- A disabled menu item never fires its click handler; with no selected
-- version the optional chain yields `undefined`, i.e. not disabled.
def deleteMenuItemDisabled (st : NavState) : Bool :=
  match st.selectedVersionForMenu with
  | some v => v.isCurrentVersion
  | none => false

def deleteMenuItemClick (chatId : String) (st : NavState)
    (deleteResult : Except String Unit)
    (listResult : Except String (List ChatVersion)) : DeleteOutcome :=
  if deleteMenuItemDisabled st then
    { state := st, deleteCalls := [], listCalled := false }
  else
    match st.selectedVersionForMenu with
    | none => { state := st, deleteCalls := [], listCalled := false }
    | some v => handleDeleteVersion chatId v.versionNumber st deleteResult listResult

-- Render decision of the second variant (lines 524–526):
-- `if (!hasMultipleVersions && totalVersions <= 1) return null;`.
-- The result is `true` when the component renders nothing.
def rendersNull (hasMultipleVersions : Bool) (totalVersions : Nat) : Bool :=
  !hasMultipleVersions && totalVersions ≤ 1

-- Render decision of the first variant (lines 103–105): the corresponding
-- guard `if (!hasMultipleVersions) return null;` is commented out, so the
-- first variant never suppresses the control.
def rendersNullV1 (_hasMultipleVersions : Bool) (_totalVersions : Nat) : Bool :=
  false

-- MessageEditor.tsx `handleSave` (lines 48–56): `hasChanges` tracks
-- `editedContent !== initialContent` (line 49); the save fires
-- `onSaveEdit(editedContent.trim())` only when
-- `editedContent.trim() && hasChanges`.  The result is the argument passed
-- to `onSaveEdit`, or `none` when the callback is not invoked (in which
-- case the editor stays in edit mode — `handleSave` itself never exits it).
def handleSave (initialContent editedContent : List Char) : Option (List Char) :=
  if jsTrim editedContent ≠ [] ∧ editedContent ≠ initialContent then
    some (jsTrim editedContent)
  else none

structure SaveEditOutcome where
  editCallback : Option (List Char)
  isEditing : Bool
  deriving Repr, DecidableEq

-- `handleSaveEdit` of the ChatMessage host (part_000 lines 80–85):
-- `if (onEditMessage && content !== message.content && content.trim())`
-- fire `onEditMessage(content)`; then `setIsEditing(false)` unconditionally.
def handleSaveEdit (onEditMessage : Bool) (messageContent content : List Char) :
    SaveEditOutcome :=
  { editCallback :=
      if onEditMessage ∧ content ≠ messageContent ∧ jsTrim content ≠ [] then
        some content
      else none,
    isEditing := false }

structure ComposedSaveOutcome where
  editCallback : Option (List Char)
  exitsEditMode : Bool
  deriving Repr, DecidableEq

-- The composed save path: MessageEditor's `handleSave` wired (as in
-- part_000 lines 263–272) with `onSaveEdit = handleSaveEdit` and the host
-- `onEditMessage` callback present.  When `handleSave` does not fire
-- `onSaveEdit`, `isEditing` is never touched, so edit mode is not exited.
def saveEdit (original draft : List Char) : ComposedSaveOutcome :=
  match handleSave original draft with
  | none => { editCallback := none, exitsEditMode := false }
  | some trimmed =>
      let o := handleSaveEdit true original trimmed
      { editCallback := o.editCallback, exitsEditMode := !o.isEditing }

-- Sample states used by concrete witnesses.
def sampleVersion : ChatVersion :=
  { versionNumber := 2, isCurrentVersion := false, content := "hi",
    contentPreview := "hi", createdAt := "2024-01-01", wordCount := 1,
    characterCount := 2 }

def sampleCurrentVersion : ChatVersion :=
  { versionNumber := 1, isCurrentVersion := true, content := "hello",
    contentPreview := "hello", createdAt := "2024-01-01", wordCount := 1,
    characterCount := 5 }

def st0 : NavState :=
  { versions := [sampleCurrentVersion, sampleVersion], dialogOpen := true,
    loading := true, error := none, selectedVersionForMenu := none,
    compareMode := false, selectedVersions := [] }

def st0V1 : NavStateV1 :=
  { versions := [sampleCurrentVersion, sampleVersion], dialogOpen := true,
    loading := true }

def stMenuCurrent : NavState :=
  { st0 with selectedVersionForMenu := some sampleCurrentVersion }

def stCompare : NavState :=
  { st0 with compareMode := true }

/-! Helper lemmas about trimming: `jsTrim` is idempotent. -/

theorem dropWhile_head?_false (p : Char → Bool) (l : List Char) :
    ∀ c, (l.dropWhile p).head? = some c → p c = false := by
  induction l with
  | nil =>
    intro c h
    simp at h
  | cons x xs ih =>
    intro c h
    by_cases hx : p x = true
    · rw [List.dropWhile_cons_of_pos hx] at h
      exact ih c h
    · rw [List.dropWhile_cons_of_neg hx] at h
      simp only [List.head?_cons, Option.some.injEq] at h
      subst h
      simpa using hx

theorem dropWhile_eq_self_of_head (p : Char → Bool) (l : List Char)
    (h : ∀ c, l.head? = some c → p c = false) : l.dropWhile p = l := by
  cases l with
  | nil => rfl
  | cons x xs =>
    have hx : p x = false := h x rfl
    exact List.dropWhile_cons_of_neg (by simp [hx])

theorem dropWhile_getLast? (p : Char → Bool) (l : List Char)
    (h : l.dropWhile p ≠ []) : (l.dropWhile p).getLast? = l.getLast? := by
  induction l with
  | nil => simp at h
  | cons x xs ih =>
    by_cases hx : p x = true
    · rw [List.dropWhile_cons_of_pos hx] at h ⊢
      have hxs : xs ≠ [] := by
        intro he
        subst he
        simp at h
      rw [ih h]
      cases xs with
      | nil => exact absurd rfl hxs
      | cons y ys => rw [List.getLast?_cons_cons]
    · rw [List.dropWhile_cons_of_neg hx]

theorem jsTrimLeft_idem (s : List Char) : jsTrimLeft (jsTrimLeft s) = jsTrimLeft s := by
  apply dropWhile_eq_self_of_head
  intro c hc
  exact dropWhile_head?_false _ s c hc

theorem jsTrimRight_idem (s : List Char) :
    jsTrimRight (jsTrimRight s) = jsTrimRight s := by
  unfold jsTrimRight
  rw [List.reverse_reverse]
  have h := jsTrimLeft_idem s.reverse
  unfold jsTrimLeft at h
  rw [h]

theorem jsTrimLeft_jsTrim (s : List Char) : jsTrimLeft (jsTrim s) = jsTrim s := by
  apply dropWhile_eq_self_of_head
  intro c hc
  unfold jsTrim jsTrimRight at hc
  rw [List.head?_reverse] at hc
  have hne : (jsTrimLeft s).reverse.dropWhile Char.isWhitespace ≠ [] := by
    intro he
    rw [he] at hc
    simp at hc
  rw [dropWhile_getLast? _ _ hne] at hc
  rw [List.getLast?_reverse] at hc
  unfold jsTrimLeft at hc
  exact dropWhile_head?_false _ s c hc

theorem jsTrim_idem (s : List Char) : jsTrim (jsTrim s) = jsTrim s := by
  have h1 := jsTrimLeft_jsTrim s
  unfold jsTrim at h1 ⊢
  rw [h1]
  exact jsTrimRight_idem _

/-- C5 is false as stated: with original content `['a']` and a draft equal to
it, the composed save path invokes no callback (as the claim says) but does
not exit edit mode, while the claim asserts edit mode exits. -/
theorem saveEdit_counterexample :
    (saveEdit ['a'] ['a']).editCallback = none ∧
    ¬ (saveEdit ['a'] ['a']).exitsEditMode = true := by
  decide

/-- C5 (amended): saveEdit invokes the host edit callback with the trimmed
draft exactly when the trimmed draft is non-empty, the raw draft differs
from the original and the trimmed draft differs from the original; it exits
edit mode exactly when the trimmed draft is non-empty and the raw draft
differs from the original; in particular, for a draft equal to the original
content the callback is never invoked and edit mode does not exit. -/
theorem saveEdit_characterization (orig draft : List Char) :
    ((saveEdit orig draft).editCallback =
      if jsTrim draft ≠ [] ∧ draft ≠ orig ∧ jsTrim draft ≠ orig then
        some (jsTrim draft)
      else none) ∧
    ((saveEdit orig draft).exitsEditMode
        = decide (jsTrim draft ≠ [] ∧ draft ≠ orig)) ∧
    (saveEdit orig orig).editCallback = none ∧
    (saveEdit orig orig).exitsEditMode = false := by
  have hself1 : (saveEdit orig orig).editCallback = none := by
    simp [saveEdit, handleSave]
  have hself2 : (saveEdit orig orig).exitsEditMode = false := by
    simp [saveEdit, handleSave]
  by_cases h1 : jsTrim draft = []
  · refine ⟨?_, ?_, hself1, hself2⟩ <;> simp [saveEdit, handleSave, h1]
  · by_cases h2 : draft = orig
    · refine ⟨?_, ?_, hself1, hself2⟩ <;> simp [saveEdit, handleSave, h1, h2]
    · have hsome : handleSave orig draft = some (jsTrim draft) := by
        simp [handleSave, h1, h2]
      have hidem := jsTrim_idem draft
      by_cases h3 : jsTrim draft = orig
      · have h1o : orig ≠ [] := h3 ▸ h1
        refine ⟨?_, ?_, hself1, hself2⟩ <;>
          simp [saveEdit, hsome, handleSaveEdit, h1, h2, h3, hidem, h1o]
      · refine ⟨?_, ?_, hself1, hself2⟩ <;>
          simp [saveEdit, hsome, handleSaveEdit, h1, h2, h3, hidem]

/-- C1: deleting the currently displayed version is rejected without any
store delete invocation.  When the version targeted by the menu is the
current one (the data-model invariant ties `isCurrentVersion` to
`versionNumber = currentVersion`), the Delete Version menu item is
disabled, so the click issues zero store delete calls and leaves the
controller state unchanged. -/
theorem deleteCurrentVersion_rejected (chatId : String) (cv : Nat)
    (st : NavState) (v : ChatVersion)
    (del : Except String Unit) (ls : Except String (List ChatVersion))
    (hsel : st.selectedVersionForMenu = some v)
    (hinv : v.isCurrentVersion = (v.versionNumber == cv))
    (hn : v.versionNumber = cv) :
    (deleteMenuItemClick chatId st del ls).deleteCalls = [] ∧
    (deleteMenuItemClick chatId st del ls).state = st := by
  have hcur : v.isCurrentVersion = true := by
    rw [hinv, hn]
    simp
  have hdis : deleteMenuItemDisabled st = true := by
    unfold deleteMenuItemDisabled
    rw [hsel]
    exact hcur
  unfold deleteMenuItemClick
  rw [hdis]
  simp

theorem deleteCurrentVersion_rejected_witness :
    (deleteMenuItemClick "c1" stMenuCurrent (Except.ok ()) (Except.ok [])).deleteCalls
      = [] :=
  (deleteCurrentVersion_rejected "c1" 1 stMenuCurrent sampleCurrentVersion
      (Except.ok ()) (Except.ok []) rfl (by decide) rfl).1

/-- C2 is false as stated: with `totalVersions = 1` the second variant still
renders the control when `hasMultipleVersions` is `true`, and the first
variant renders it even with `hasMultipleVersions = false` (its visibility
guard is commented out). -/
theorem navigatorRender_counterexample :
    rendersNull true 1 = false ∧ rendersNullV1 false 1 = false := by
  decide

/-- C2 (amended): the second variant renders as absent exactly when
`hasMultipleVersions` is false and `totalVersions ≤ 1`; the first variant
never renders as absent. -/
theorem navigatorRender_amended (h : Bool) (t : Nat) :
    (rendersNull h t = true ↔ (h = false ∧ t ≤ 1)) ∧ rendersNullV1 h t = false := by
  constructor
  · unfold rendersNull
    cases h <;> simp
  · rfl

/-- C3: the refresh contract of the versions cache.  With a non-empty
chatId, a successful list call replaces `versions` and ends with
`lastError = none`; a failed call leaves `versions` exactly as before and
ends with a non-none `lastError`; `loading` is false on completion either
way; and a successful refresh performed after a failed one ends with
`lastError = none`. -/
theorem loadVersions_contract (chatId : String) (st : NavState)
    (res : Except String (List ChatVersion)) (h : chatId ≠ "") :
    (loadVersions chatId st res).state.loading = false ∧
    (∀ vs, res = Except.ok vs →
      (loadVersions chatId st res).state.versions = vs ∧
      (loadVersions chatId st res).state.error = none) ∧
    (∀ e, res = Except.error e →
      (loadVersions chatId st res).state.versions = st.versions ∧
      (loadVersions chatId st res).state.error ≠ none) ∧
    (∀ e vs,
      (loadVersions chatId
        (loadVersions chatId st (Except.error e)).state
        (Except.ok vs)).state.error = none) := by
  refine ⟨?_, ?_, ?_, ?_⟩
  · cases res <;> simp [loadVersions, h]
  · intro vs hres
    subst hres
    simp [loadVersions, h]
  · intro e hres
    subst hres
    simp [loadVersions, h]
  · intro e vs
    simp [loadVersions, h]

theorem loadVersions_contract_witness :
    (loadVersions "c" st0 (Except.ok [])).state.error = none :=
  ((loadVersions_contract "c" st0 (Except.ok []) (by decide)).2.1 [] rfl).2

/-- C4 is false as stated: the first variant's version selection issues no
store switch call at all, yet reports the version to the host and closes
the dialog — at version 2 it reports `some 2` although no store call was
made, contradicting that the host is notified only after a successful
store switch. -/
theorem versionSelect_counterexample :
    (handleVersionSelectV1 2).switchCalled = false ∧
    (handleVersionSelectV1 2).reported = some 2 ∧
    (handleVersionSelectV1 2).dialogOpen = false := by
  decide

/-- C4 (amended): in the second variant, selectVersion in normal mode always
issues the store switch call; on success it reports n via onVersionChange
and closes the dialog; on failure it sets `lastError`, reports nothing and
leaves the dialog as it was; `loading` is cleared either way.  The first
variant issues no store call and unconditionally reports n and closes the
dialog. -/
theorem versionSelect_amended (n : Nat) (st : NavState)
    (res : Except String Unit) :
    (handleVersionSelect n st res).switchCalled = true ∧
    (∀ u, res = Except.ok u →
      (handleVersionSelect n st res).reported = some n ∧
      (handleVersionSelect n st res).state.dialogOpen = false) ∧
    (∀ e, res = Except.error e →
      (handleVersionSelect n st res).reported = none ∧
      (handleVersionSelect n st res).state.error ≠ none ∧
      (handleVersionSelect n st res).state.dialogOpen = st.dialogOpen) ∧
    (handleVersionSelect n st res).state.loading = false ∧
    (handleVersionSelectV1 n).switchCalled = false ∧
    (handleVersionSelectV1 n).reported = some n ∧
    (handleVersionSelectV1 n).dialogOpen = false := by
  refine ⟨?_, ?_, ?_, ?_, rfl, rfl, rfl⟩
  · cases res <;> rfl
  · intro u hres
    subst hres
    simp [handleVersionSelect]
  · intro e hres
    subst hres
    simp [handleVersionSelect]
  · cases res <;> simp [handleVersionSelect]

theorem versionSelect_amended_witness :
    (handleVersionSelect 2 st0 (Except.ok ())).reported = some 2 :=
  ((versionSelect_amended 2 st0 (Except.ok ())).2.1 () rfl).1

/-- C6: for `1 ≤ n ≤ totalVersions`, stepPrevious requests `n - 1` when
`n > 1` and wraps to `totalVersions` when `n = 1`; stepNext requests
`n + 1` when `n < totalVersions` and wraps to `1` when `n = totalVersions`;
both are total functions, so no boundary produces an error. -/
theorem stepNavigation_contract (n t : Nat) (h1 : 1 ≤ n) (h2 : n ≤ t) :
    (n > 1 → handlePreviousVersion n t = n - 1) ∧
    (n = 1 → handlePreviousVersion n t = t) ∧
    (n < t → handleNextVersion n t = n + 1) ∧
    (n = t → handleNextVersion n t = 1) := by
  refine ⟨?_, ?_, ?_, ?_⟩
  · intro h
    unfold handlePreviousVersion
    rw [if_pos h]
  · intro h
    subst h
    unfold handlePreviousVersion
    rw [if_neg (by omega)]
  · intro h
    unfold handleNextVersion
    rw [if_pos h]
  · intro h
    subst h
    unfold handleNextVersion
    rw [if_neg (by omega)]

theorem stepNavigation_witness :
    handlePreviousVersion 1 3 = 3 ∧ handleNextVersion 3 3 = 1 :=
  ⟨(stepNavigation_contract 1 3 (by decide) (by decide)).2.1 rfl,
   (stepNavigation_contract 3 3 (by decide) (by decide)).2.2.2 rfl⟩

/-- C7: the compare-mode selection toggle removes an already selected
version, appends a new one only while fewer than two are selected, and is
a no-op when two others are already selected; starting from a selection
that is duplicate-free with at most two elements, the result stays
duplicate-free with at most two elements. -/
theorem toggleCompare_contract (n : Nat) (sel : List Nat)
    (hnd : sel.Nodup) (hlen : sel.length ≤ 2) :
    (handleVersionToggleForCompare n sel).Nodup ∧
    (handleVersionToggleForCompare n sel).length ≤ 2 ∧
    (n ∈ sel → n ∉ handleVersionToggleForCompare n sel ∧
      ∀ m, m ≠ n → (m ∈ handleVersionToggleForCompare n sel ↔ m ∈ sel)) ∧
    (n ∉ sel → sel.length < 2 →
      handleVersionToggleForCompare n sel = sel ++ [n]) ∧
    (n ∉ sel → sel.length = 2 → handleVersionToggleForCompare n sel = sel) := by
  by_cases hmem : n ∈ sel
  · have hc : sel.contains n = true := List.elem_eq_true_of_mem hmem
    unfold handleVersionToggleForCompare
    rw [hc]
    simp only [if_true]
    refine ⟨hnd.filter _, ?_, ?_, ?_, ?_⟩
    · exact le_trans (List.length_filter_le _ _) hlen
    · intro _
      refine ⟨?_, ?_⟩
      · simp [List.mem_filter]
      · intro m hm
        simp [List.mem_filter, hm]
    · intro habs
      exact absurd hmem habs
    · intro habs
      exact absurd hmem habs
  · have hc : sel.contains n = false := by
      cases hcc : sel.contains n
      · rfl
      · exact absurd (List.mem_of_elem_eq_true hcc) hmem
    unfold handleVersionToggleForCompare
    rw [hc]
    simp only [Bool.false_eq_true, if_false]
    by_cases hlt : sel.length < 2
    · rw [if_pos hlt]
      refine ⟨?_, ?_, ?_, ?_, ?_⟩
      · simp [List.nodup_append, hnd, hmem]
      · simp
        omega
      · intro h
        exact absurd h hmem
      · intro _ _
        rfl
      · intro _ hl2
        omega
    · rw [if_neg hlt]
      refine ⟨hnd, hlen, ?_, ?_, ?_⟩
      · intro h
        exact absurd h hmem
      · intro _ hl
        omega
      · intro _ _
        rfl

theorem toggleCompare_witness :
    handleVersionToggleForCompare 3 [1, 2] = [1, 2] :=
  (toggleCompare_contract 3 [1, 2] (by decide) (by decide)).2.2.2.2
    (by decide) rfl

theorem stepNext_cycle_aux (t k : Nat) (hk : k < t) :
    (fun c => handleNextVersion c t)^[k] 1 = k + 1 := by
  induction k with
  | zero => simp
  | succ k ih =>
    rw [Function.iterate_succ_apply']
    rw [ih (by omega)]
    show handleNextVersion (k + 1) t = k + 1 + 1
    unfold handleNextVersion
    rw [if_pos (by omega)]

/-- C8: cyclic closure — for any `totalVersions ≥ 1`, starting at version 1
and applying the stepNext request `totalVersions` times (the host adopting
each requested version) returns to version 1. -/
theorem stepNext_cycle (t : Nat) (ht : 1 ≤ t) :
    (fun c => handleNextVersion c t)^[t] 1 = 1 := by
  obtain ⟨s, rfl⟩ : ∃ s, t = s + 1 := ⟨t - 1, by omega⟩
  rw [Function.iterate_succ_apply']
  rw [stepNext_cycle_aux (s + 1) s (by omega)]
  show handleNextVersion (s + 1) (s + 1) = 1
  unfold handleNextVersion
  rw [if_neg (by omega)]

theorem stepNext_cycle_witness :
    (fun c => handleNextVersion c 3)^[3] 1 = 1 :=
  stepNext_cycle 3 (by decide)

/-- C9: in compare mode a click on a version row never issues the store
switch call, never reports a version to the host, leaves the dialog state
(and everything else except the selection) unchanged, and only toggles the
clicked version's membership in `selectedVersions`. -/
theorem compareModeClick_contract (n : Nat) (st : NavState)
    (res : Except String Unit) (h : st.compareMode = true) :
    (listItemButtonClick n st res).switchCalled = false ∧
    (listItemButtonClick n st res).reported = none ∧
    (listItemButtonClick n st res).state.dialogOpen = st.dialogOpen ∧
    (listItemButtonClick n st res).state.selectedVersions
      = handleVersionToggleForCompare n st.selectedVersions ∧
    (listItemButtonClick n st res).state.versions = st.versions ∧
    (listItemButtonClick n st res).state.loading = st.loading ∧
    (listItemButtonClick n st res).state.error = st.error ∧
    (listItemButtonClick n st res).state.compareMode = st.compareMode ∧
    (listItemButtonClick n st res).state.selectedVersionForMenu
      = st.selectedVersionForMenu := by
  unfold listItemButtonClick
  rw [h]
  simp

theorem compareModeClick_witness :
    (listItemButtonClick 2 stCompare (Except.ok ())).switchCalled = false :=
  (compareModeClick_contract 2 stCompare (Except.ok ()) rfl).1

/-- C10: with an empty (falsy) chatId, refresh returns immediately in both
variants: no store list call is issued and the whole controller state —
in particular `versions`, `loading` and `lastError` — is unchanged. -/
theorem loadVersions_emptyChatId (chatId : String) (st : NavState)
    (stv1 : NavStateV1) (res : Except String (List ChatVersion))
    (h : chatId = "") :
    (loadVersions chatId st res).state = st ∧
    (loadVersions chatId st res).listCalled = false ∧
    (loadVersionsV1 chatId stv1 res).state = stv1 ∧
    (loadVersionsV1 chatId stv1 res).listCalled = false := by
  subst h
  refine ⟨?_, ?_, ?_, ?_⟩ <;> simp [loadVersions, loadVersionsV1]

theorem loadVersions_emptyChatId_witness :
    (loadVersions "" st0 (Except.ok [])).listCalled = false :=
  (loadVersions_emptyChatId "" st0 st0V1 (Except.ok []) rfl).2.1

end ZStudy
